import Mathlib

/-!
Verification of the PlaygroundMCP repository's core behaviours: the
topic-partitioned paper metadata store (`search_papers`, `extract_info`,
`get_topic_papers` in `common_mcp_tools.py`) and the Generator
introspection endpoints (`generator_mcp_config_server.py`).

The Python code is shallowly embedded: external collaborators (the arXiv
client, Python's `eval`, `strftime`, the Generator singleton) are
parameters; the filesystem state relevant to one call is an explicit
value; Python dicts keyed by paper id become association lists with
overwrite-in-place insertion (matching dict update semantics: an existing
key keeps its position, a new key is appended).
-/

namespace PlaygroundMCP

/-- A stored paper record, mirroring the dict built in
`search_papers` (`common_mcp_tools.py` lines 89-95): title, authors,
summary, pdf_url and published date string. -/
structure PaperInfo where
  title : String
  authors : List String
  summary : String
  pdf_url : String
  published : String
deriving DecidableEq, Repr

/-- A result object yielded by the arXiv client collaborator, exposing
exactly the fields `search_papers` reads: `get_short_id()`, `title`,
`authors` (names already extracted), `summary`, `pdf_url`, and the
optional `published` date (already rendered as its date string when
present, `none` when the attribute is falsy). -/
structure ArxivPaper where
  shortId : String
  title : String
  authors : List String
  summary : String
  pdfUrl : String
  published : Option String
deriving DecidableEq, Repr

/-- The record `search_papers` builds from one collaborator result
(`common_mcp_tools.py` lines 89-95); a missing publication date becomes
the sentinel string. -/
def paperInfoEntry (p : ArxivPaper) : PaperInfo :=
  { title := p.title
    authors := p.authors
    summary := p.summary
    pdf_url := p.pdfUrl
    published := p.published.getD "N/A" }

/-- The contents of one topic partition's `papers_info.json` file:
absent, present but not valid JSON, or a parsed mapping from paper id to
record. -/
inductive PartitionFile where
  | absent
  | corrupt
  | data (m : List (String × PaperInfo))
deriving DecidableEq, Repr

/-- Python dict assignment `d[k] = v` on an association list: replace
the value at the first occurrence of `k` in place, or append the new
binding at the end. -/
def dictInsert : List (String × PaperInfo) → String → PaperInfo → List (String × PaperInfo)
  | [], k, v => [(k, v)]
  | (k', v') :: rest, k, v =>
    if k' = k then (k, v) :: rest else (k', v') :: dictInsert rest k v

/-- Lookup in an association-list dict (Python `k in d` / `d[k]`). -/
def dictLookup : List (String × PaperInfo) → String → Option PaperInfo
  | [], _ => none
  | (k', v') :: rest, k => if k' = k then some v' else dictLookup rest k

/-- The key list of an association-list dict. -/
def dictKeys (m : List (String × PaperInfo)) : List String :=
  m.map (fun p => p.1)

/-- Loading a partition file in `search_papers` (`common_mcp_tools.py`
lines 79-83): `FileNotFoundError` and `JSONDecodeError` both fall back
to the empty dict. -/
def loadPartition : PartitionFile → List (String × PaperInfo)
  | .data m => m
  | _ => []

/-- The persistent-state core of `search_papers` (`common_mcp_tools.py`
lines 79-102), with the arXiv collaborator's results passed as a value:
load the topic partition (empty on absence or parse failure), insert
every fetched record keyed by its short id (overwriting prior entries),
write the merged mapping back, and return the fetched ids in order. -/
def search_papers (file : PartitionFile) (results : List ArxivPaper) :
    List String × PartitionFile :=
  (results.map (fun p => p.shortId),
   .data (results.foldl (fun m p => dictInsert m p.shortId (paperInfoEntry p))
     (loadPartition file)))

/-- The record the last occurrence (if any) of short id `k` in the
collaborator's result list would store: the Python fold writes results
in order, so a later result with the same id wins. -/
def lastEntry : List ArxivPaper → String → Option PaperInfo
  | [], _ => none
  | p :: rest, k =>
    (lastEntry rest k) <|> (if p.shortId = k then some (paperInfoEntry p) else none)

/-- One directory entry of the root `papers` directory as `extract_info`
sees it: its name, whether it is a directory, and the state of its
`papers_info.json` file. -/
structure DirEntry where
  name : String
  isDir : Bool
  file : PartitionFile
deriving DecidableEq, Repr

/-- The outcome of `extract_info`: the found record (the code returns it
serialized), the missing-root message, or the final not-found message. -/
inductive ExtractResult where
  | found (info : PaperInfo)
  | noPapersDir
  | notFound
deriving DecidableEq, Repr

/-- The scan loop of `extract_info` (`common_mcp_tools.py` lines
116-129): non-directories are skipped, a missing or unparsable
`papers_info.json` is skipped with `continue`, and the first mapping
containing the id wins. -/
def extractInfoScan (pid : String) : List DirEntry → ExtractResult
  | [] => .notFound
  | e :: rest =>
    if e.isDir then
      match e.file with
      | .data m =>
        match dictLookup m pid with
        | some info => .found info
        | none => extractInfoScan pid rest
      | _ => extractInfoScan pid rest
    else extractInfoScan pid rest

/-- Embedding of `extract_info` (`common_mcp_tools.py` lines 104-131) over an
explicit filesystem state: `none` models an absent `papers` root
directory; otherwise the listed entries are scanned in order. -/
def extract_info (root : Option (List DirEntry)) (pid : String) : ExtractResult :=
  match root with
  | none => .noPapersDir
  | some entries => extractInfoScan pid entries

/-- Whether one directory entry would satisfy the `extract_info` scan
for `pid`: it is a directory whose file parses to a mapping containing
`pid`. -/
def entryHasId (e : DirEntry) (pid : String) : Bool :=
  e.isDir &&
    (match e.file with
     | .data m => (dictLookup m pid).isSome
     | _ => false)

/-- Python `str.lower()` restricted to ASCII case mapping. -/
def pyLower (s : String) : String :=
  String.mk (s.data.map Char.toLower)

/-- Python `str.replace(old, new)` for single-character old and new. -/
def pyReplaceChar (s : String) (old new : Char) : String :=
  String.mk (s.data.map (fun c => if c = old then new else c))

/-- The topic slug computed by `search_papers`
(`common_mcp_tools.py` line 73): lowercase, spaces to underscores. -/
def topicSlug (topic : String) : String :=
  pyReplaceChar (pyLower topic) ' ' '_'

/-- Python `str.title()` on ASCII text: each alphabetic character is
uppercased when the previous character is not alphabetic and lowercased
otherwise. -/
def titleAux : Bool → List Char → List Char
  | _, [] => []
  | prevCased, c :: cs =>
    if c.isAlpha then
      (if prevCased then c.toLower else c.toUpper) :: titleAux true cs
    else
      c :: titleAux false cs

/-- Python `str.title()` (ASCII). -/
def pyTitle (s : String) : String :=
  String.mk (titleAux false s.data)

/-- The topic title rendered by `get_topic_papers`
(`common_mcp_tools.py` line 180): underscores and hyphens to spaces,
then title case. -/
def topicTitleRender (topic : String) : String :=
  pyTitle (pyReplaceChar (pyReplaceChar topic '_' ' ') '-' ' ')

/-- Python slice `s[:n]` by code points. -/
def pySlice (s : String) (n : Nat) : String :=
  String.mk (s.data.take n)

/-- The summary excerpt `get_topic_papers` displays for one record
(`common_mcp_tools.py` line 197): the first 500 characters of the
summary with `...` appended. -/
def summaryExcerpt (summary : String) : String :=
  pySlice summary 500 ++ "..."

/-- The character whitelist of `calculator`
(`common_mcp_tools.py` line 25). -/
def allowedChars : List Char :=
  "0123456789+-*/. ()".data

/-- Embedding of `calculator` (`common_mcp_tools.py` lines 13-31). Python `eval` is
an external collaborator passed as `evalF`: `.ok v` is a successful
evaluation with `str(result) = v`, `.error e` an evaluation that raised
with message `str(e) = e`. The whitelist check runs first; an evaluation
failure is caught and rendered as a message. -/
def calculator (evalF : String → Except String String) (expression : String) : String :=
  if expression.data.all (fun c => c ∈ allowedChars) then
    match evalF expression with
    | .ok v => v
    | .error e => "Error evaluating expression: " ++ e
  else
    "Error: Invalid characters in expression."

/-- Embedding of `get_current_datetime` (`common_mcp_tools.py` lines 33-50).
`isoNow` is `now.isoformat()` and `strftimeF` the `now.strftime`
collaborator (`.error e` models a raised exception with message `e`).
Python's `if format_str:` is falsy for `None` and for the empty
string. -/
def get_current_datetime (isoNow : String) (strftimeF : String → Except String String)
    (format_str : Option String) : String :=
  match format_str with
  | some f =>
    if f = "" then isoNow
    else
      match strftimeF f with
      | .ok s => s
      | .error e => "Error formatting date: " ++ e ++ ". Using default format."
  | none => isoNow

/-- A JSON-serializable payload value as produced by the introspection
endpoints: a string, a number (the `len` counts), or a boolean. -/
inductive JVal where
  | s (v : String)
  | n (v : Nat)
  | b (v : Bool)
deriving DecidableEq, Repr

/-- The nested `mcp_client_manager` object as `get_generator_status`
reads it: each field is `none` when the attribute is missing (its access
then raises `AttributeError`). -/
structure McpClientManager where
  initializedAttr : Option Bool
  availableTools : Option (List String)
deriving DecidableEq, Repr

/-- The Generator singleton's observable attribute state. Every field is
an `Option`: `none` means the attribute is missing, so that a direct
access raises `AttributeError` while `hasattr` returns false.
Configuration values are abstracted to their serialized strings.
`hfEmbeddingModel`/`hfCompletionModel` are doubly optional: the outer
layer is `hasattr`, the inner layer is the attribute's truthiness (the
type name when truthy). -/
structure GenObj where
  initializedAttr : Option Bool
  mainConfig : Option String
  modelConfig : Option String
  defaultEmbeddingModel : Option String
  defaultCompletionModel : Option String
  defaultReasoningModel : Option String
  defaultHfEmbeddingModel : Option String
  defaultHfCompletionModel : Option String
  defaultHfRerankerModel : Option String
  defaultHfOcrModel : Option String
  hfModelDir : Option String
  embeddingModelCache : Option (List String)
  completionModelCache : Option (List String)
  hfEmbeddingModel : Option (Option String)
  hfCompletionModel : Option (Option String)
  lastCleanupTime : Option String
  mcpClientManager : Option McpClientManager
deriving DecidableEq, Repr

/-- The error payload both endpoints return when the singleton is absent
or not initialized (`generator_mcp_config_server.py` lines 43-44 and
76-77). -/
def unavailableErrorDict : List (String × JVal) :=
  [("error", .s "Generator instance is not available or not initialized.")]

/-- The error payload for an `AttributeError` caught in
`get_generator_configuration` (the interpolated exception text is
abstracted). -/
def configAttrErrorDict : List (String × JVal) :=
  [("error", .s "Generator instance is missing an expected attribute.")]

/-- The error payload for an `AttributeError` caught in
`get_generator_status`. -/
def statusAttrErrorDict : List (String × JVal) :=
  [("error", .s "Generator instance is missing an expected attribute for status.")]

/-- Embedding of `get_generator_configuration`
(`generator_mcp_config_server.py` lines 37-68) over the singleton state
(`none` models `generator_singleton is None`). The guard requires the
`_initialized` attribute to exist and be truthy; inside the `try`, the
first missing attribute raises `AttributeError`, caught into an error
payload (the interpolated exception text is abstracted). -/
def get_generator_configuration (gen : Option GenObj) : List (String × JVal) :=
  match gen with
  | none => unavailableErrorDict
  | some g =>
    match g.initializedAttr with
    | none => unavailableErrorDict
    | some false => unavailableErrorDict
    | some true =>
      match g.mainConfig, g.modelConfig, g.defaultEmbeddingModel,
        g.defaultCompletionModel, g.defaultReasoningModel,
        g.defaultHfEmbeddingModel, g.defaultHfCompletionModel,
        g.defaultHfRerankerModel, g.defaultHfOcrModel, g.hfModelDir with
      | some mc, some moc, some de, some dc, some dr, some dhe, some dhc,
        some dhr, some dho, some hmd =>
        [("main_config", .s mc),
         ("model_config", .s moc),
         ("default_embedding_model", .s de),
         ("default_completion_model", .s dc),
         ("default_reasoning_model", .s dr),
         ("default_hf_embedding_model", .s dhe),
         ("default_hf_completion_model", .s dhc),
         ("default_hf_reranker_model", .s dhr),
         ("default_hf_ocr_model", .s dho),
         ("hf_model_dir", .s hmd)]
      | _, _, _, _, _, _, _, _, _, _ => configAttrErrorDict

/-- Embedding of `get_generator_status` (`generator_mcp_config_server.py` lines
70-100). Cache sizes, the last-cleanup time and the nested manager
fields degrade to the string sentinels when their `hasattr` guard fails;
but a present `mcp_client_manager` lacking `_initialized` or
`available_tools` raises `AttributeError` inside the `try`, caught into
an error payload. -/
def get_generator_status (gen : Option GenObj) : List (String × JVal) :=
  match gen with
  | none => unavailableErrorDict
  | some g =>
    match g.initializedAttr with
    | none => unavailableErrorDict
    | some false => unavailableErrorDict
    | some true =>
      let ecs : JVal := match g.embeddingModelCache with
        | some l => .n l.length
        | none => .s "N/A"
      let ccs : JVal := match g.completionModelCache with
        | some l => .n l.length
        | none => .s "N/A"
      let hfe : JVal := match g.hfEmbeddingModel with
        | some (some tyName) => .s tyName
        | _ => .s "Not loaded"
      let hfc : JVal := match g.hfCompletionModel with
        | some (some tyName) => .s tyName
        | _ => .s "Not loaded"
      let lct : JVal := match g.lastCleanupTime with
        | some t => .s t
        | none => .s "N/A"
      match g.mcpClientManager with
      | none =>
        [("initialized", .b true),
         ("embedding_model_cache_size", ecs),
         ("completion_model_cache_size", ccs),
         ("hf_embedding_model_loaded", hfe),
         ("hf_completion_model_loaded", hfc),
         ("last_cleanup_time", lct),
         ("mcp_client_manager_initialized", .s "N/A"),
         ("mcp_client_available_tools_count", .s "N/A")]
      | some mgr =>
        match mgr.initializedAttr, mgr.availableTools with
        | some mi, some tools =>
          [("initialized", .b true),
           ("embedding_model_cache_size", ecs),
           ("completion_model_cache_size", ccs),
           ("hf_embedding_model_loaded", hfe),
           ("hf_completion_model_loaded", hfc),
           ("last_cleanup_time", lct),
           ("mcp_client_manager_initialized", .b mi),
           ("mcp_client_available_tools_count", .n tools.length)]
        | _, _ => statusAttrErrorDict

/-- Lookup in a payload dict by key. -/
def payloadLookup (d : List (String × JVal)) (k : String) : Option JVal :=
  match d with
  | [] => none
  | (k', v) :: rest => if k' = k then some v else payloadLookup rest k

/-- A concrete stored record used in concrete evaluations. -/
def recA : PaperInfo :=
  { title := "Paper A", authors := ["Ada"], summary := "sa",
    pdf_url := "http://a", published := "2020-01-01" }

/-- A concrete stored record used in concrete evaluations. -/
def recB : PaperInfo :=
  { title := "Paper B", authors := ["Bob"], summary := "sb",
    pdf_url := "http://b", published := "2020-02-02" }

/-- A concrete collaborator result with id `b`, a fresh version of the
stored record `recB`. -/
def paperBfresh : ArxivPaper :=
  { shortId := "b", title := "Paper B v2", authors := ["Bob"],
    summary := "sb2", pdfUrl := "http://b2", published := some "2021-02-02" }

/-- A concrete collaborator result with the new id `c`. -/
def paperCfresh : ArxivPaper :=
  { shortId := "c", title := "Paper C", authors := ["Cy"],
    summary := "sc", pdfUrl := "http://c", published := none }

/-- A concrete topic directory whose partition file is corrupt. -/
def dirCorrupt : DirEntry :=
  { name := "topic1", isDir := true, file := .corrupt }

/-- A concrete topic directory whose partition maps `x1` to `recA`. -/
def dirWithX : DirEntry :=
  { name := "topic2", isDir := true, file := .data [("x1", recA)] }

/-- A concrete `strftime` collaborator that raises on every format. -/
def strftimeFailW : String → Except String String :=
  fun _ => .error "bad directive"

/-- A concrete Generator singleton state that is present but has
`_initialized = False`. -/
def genUninitW : GenObj :=
  { initializedAttr := some false, mainConfig := some "mc",
    modelConfig := some "mo", defaultEmbeddingModel := some "e",
    defaultCompletionModel := some "c", defaultReasoningModel := some "r",
    defaultHfEmbeddingModel := some "he", defaultHfCompletionModel := some "hc",
    defaultHfRerankerModel := some "hr", defaultHfOcrModel := some "ho",
    hfModelDir := some "dir", embeddingModelCache := some [],
    completionModelCache := some [], hfEmbeddingModel := some none,
    hfCompletionModel := some none, lastCleanupTime := some "t",
    mcpClientManager := none }

/-- A concrete initialized Generator singleton state missing every
optional status attribute. -/
def genSparseW : GenObj :=
  { initializedAttr := some true, mainConfig := some "mc",
    modelConfig := some "mo", defaultEmbeddingModel := some "e",
    defaultCompletionModel := some "c", defaultReasoningModel := some "r",
    defaultHfEmbeddingModel := some "he", defaultHfCompletionModel := some "hc",
    defaultHfRerankerModel := some "hr", defaultHfOcrModel := some "ho",
    hfModelDir := some "dir", embeddingModelCache := none,
    completionModelCache := none, hfEmbeddingModel := none,
    hfCompletionModel := none, lastCleanupTime := none,
    mcpClientManager := none }

theorem dictLookup_dictInsert (m : List (String × PaperInfo)) (k k' : String)
    (v : PaperInfo) :
    dictLookup (dictInsert m k v) k' = if k = k' then some v else dictLookup m k' := by
  induction m with
  | nil => simp [dictInsert, dictLookup]
  | cons hd tl ih =>
    obtain ⟨k'', v''⟩ := hd
    by_cases h : k'' = k
    · subst h
      simp [dictInsert, dictLookup]
      by_cases h' : k'' = k' <;> simp [h']
    · simp [dictInsert, h, dictLookup]
      by_cases h' : k'' = k'
      · have hne : ¬ k = k' := fun he => h (h'.trans he.symm)
        simp [dictLookup, h', hne]
      · simp [dictLookup, h', ih]

theorem dictKeys_dictInsert_of_mem (m : List (String × PaperInfo)) (k : String)
    (v : PaperInfo) :
    k ∈ dictKeys m → dictKeys (dictInsert m k v) = dictKeys m := by
  induction m with
  | nil => intro hk; simp [dictKeys] at hk
  | cons hd tl ih =>
    obtain ⟨k'', v''⟩ := hd
    intro hk
    by_cases h : k'' = k
    · simp [dictInsert, h, dictKeys]
    · have hk' : k ∈ dictKeys tl := by
        simp [dictKeys] at hk
        rcases hk with h1 | h1
        · exact absurd h1.symm h
        · simpa [dictKeys] using h1
      have hrec := ih hk'
      simp [dictInsert, h, dictKeys] at hrec ⊢
      exact hrec

theorem mem_dictKeys_of_lookup_isSome (m : List (String × PaperInfo)) (k : String)
    (h : (dictLookup m k).isSome = true) : k ∈ dictKeys m := by
  induction m with
  | nil => simp [dictLookup] at h
  | cons hd tl ih =>
    obtain ⟨k'', v''⟩ := hd
    by_cases hk : k'' = k
    · simp [dictKeys, hk]
    · simp [dictLookup, hk] at h
      simp [dictKeys]
      exact Or.inr (by simpa [dictKeys] using ih h)

theorem dictLookup_foldl_insert (l : List ArxivPaper) (m : List (String × PaperInfo))
    (k : String) :
    dictLookup (l.foldl (fun m p => dictInsert m p.shortId (paperInfoEntry p)) m) k
      = ((lastEntry l k) <|> dictLookup m k) := by
  induction l generalizing m with
  | nil => simp [lastEntry]
  | cons p l ih =>
    rw [List.foldl_cons, ih, dictLookup_dictInsert]
    simp only [lastEntry]
    cases h : lastEntry l k <;> by_cases hp : p.shortId = k <;> simp [hp]

theorem lastEntry_isSome_of_mem (l : List ArxivPaper) (p : ArxivPaper) (hp : p ∈ l) :
    (lastEntry l p.shortId).isSome = true := by
  induction l with
  | nil => simp at hp
  | cons q l ih =>
    rw [lastEntry]
    rcases List.mem_cons.mp hp with h | h
    · subst h
      cases hle : lastEntry l p.shortId <;> simp
    · have := ih h
      cases hle : lastEntry l p.shortId <;> simp_all

theorem dictKeys_foldl_insert_of_subset (l : List ArxivPaper)
    (m : List (String × PaperInfo)) (h : ∀ p ∈ l, p.shortId ∈ dictKeys m) :
    dictKeys (l.foldl (fun m p => dictInsert m p.shortId (paperInfoEntry p)) m)
      = dictKeys m := by
  induction l generalizing m with
  | nil => simp
  | cons p l ih =>
    rw [List.foldl_cons]
    have hkeys : dictKeys (dictInsert m p.shortId (paperInfoEntry p)) = dictKeys m :=
      dictKeys_dictInsert_of_mem m p.shortId _ (h p (List.mem_cons_self p l))
    rw [ih _ (fun q hq => by rw [hkeys]; exact h q (List.mem_cons_of_mem p hq)), hkeys]

/-- C1: a partition holding exactly the records `A ↦ ra, B ↦ rb`, merged
with fresh collaborator results for ids `B` and `C`, ends up holding
exactly `A ↦ ra` (preserved), `B ↦` the fresh record (overwritten) and
`C ↦` the fresh record (added); the call returns the fresh ids in
order. -/
theorem search_papers_merge_correct
    (A B C : String) (ra rb : PaperInfo) (pB pC : ArxivPaper)
    (hAB : A ≠ B) (hAC : A ≠ C) (hBC : B ≠ C)
    (hpB : pB.shortId = B) (hpC : pC.shortId = C) :
    search_papers (.data [(A, ra), (B, rb)]) [pB, pC]
      = ([B, C], .data [(A, ra), (B, paperInfoEntry pB), (C, paperInfoEntry pC)]) := by
  subst hpB
  subst hpC
  simp [search_papers, loadPartition, dictInsert, hAB, hAC, hBC]

/-- Closed instance of `search_papers_merge_correct` on concrete
records: the prior entry `a` survives, `b` is overwritten by the fresh
record, `c` is added. -/
theorem search_papers_merge_correct_witness :
    search_papers (.data [("a", recA), ("b", recB)]) [paperBfresh, paperCfresh]
      = (["b", "c"],
         .data [("a", recA), ("b", paperInfoEntry paperBfresh),
                ("c", paperInfoEntry paperCfresh)]) :=
  search_papers_merge_correct "a" "b" "c" recA recB paperBfresh paperCfresh
    (by decide) (by decide) (by decide) rfl rfl

/-- C2: running `search_papers` twice with the collaborator returning
the identical result list both times leaves the stored partition
extensionally equal to the single-run result — same returned id
sequence, same value at every key, and the same key list (no entry is
duplicated). -/
theorem search_papers_idempotent (file : PartitionFile) (results : List ArxivPaper) :
    (search_papers (search_papers file results).2 results).1
        = (search_papers file results).1
    ∧ (∀ k, dictLookup (loadPartition (search_papers (search_papers file results).2 results).2) k
        = dictLookup (loadPartition (search_papers file results).2) k)
    ∧ dictKeys (loadPartition (search_papers (search_papers file results).2 results).2)
        = dictKeys (loadPartition (search_papers file results).2) := by
  refine ⟨rfl, ?_, ?_⟩
  · intro k
    simp only [search_papers, loadPartition]
    rw [dictLookup_foldl_insert, dictLookup_foldl_insert]
    cases lastEntry results k <;> simp
  · simp only [search_papers, loadPartition]
    apply dictKeys_foldl_insert_of_subset
    intro p hp
    apply mem_dictKeys_of_lookup_isSome
    rw [dictLookup_foldl_insert]
    have := lastEntry_isSome_of_mem results p hp
    cases h : lastEntry results p.shortId <;> simp_all

/-- C4 counterexample: with a corrupt partition file and zero
collaborator results, `search_papers` still rewrites the partition — the
corrupt content is replaced by an empty mapping, so the prior on-disk
state is not preserved for every prior state. -/
theorem search_papers_empty_corrupt_cex :
    search_papers .corrupt [] = ([], .data [])
    ∧ (PartitionFile.data [] : PartitionFile) ≠ .corrupt := by
  constructor
  · rfl
  · intro h
    cases h

/-- C4 (amended): zero collaborator results always yield an empty
returned id sequence; a partition that parses to a mapping is rewritten
with identical content; a corrupt or absent partition is rewritten as
the (empty) mapping it loads to. -/
theorem search_papers_empty_results (file : PartitionFile)
    (m : List (String × PaperInfo)) :
    (search_papers file []).1 = []
    ∧ search_papers (.data m) [] = ([], .data m)
    ∧ (search_papers file []).2 = .data (loadPartition file) := by
  exact ⟨rfl, rfl, rfl⟩

theorem extractInfoScan_cons_skip (pid : String) (e : DirEntry) (rest : List DirEntry)
    (h : entryHasId e pid = false) :
    extractInfoScan pid (e :: rest) = extractInfoScan pid rest := by
  cases hd : e.isDir with
  | false => simp [extractInfoScan, hd]
  | true =>
    cases hf : e.file with
    | data m =>
      simp [entryHasId, hd, hf] at h
      simp [extractInfoScan, hd, hf, h]
    | corrupt => simp [extractInfoScan, hd, hf]
    | absent => simp [extractInfoScan, hd, hf]

/-- C3: `extract_info` returns the missing-directory message when the
root storage directory is absent; scanning returns the record of the
first partition containing the id, skipping earlier entries that are not
directories, have no parseable file, or do not contain the id (so a
corrupt partition never aborts the scan); and when no partition contains
the id it returns the not-found message. The embedding is a total
function, so no input makes the operation fail. -/
theorem extract_info_first_match (pid : String) :
    extract_info none pid = .noPapersDir
    ∧ (∀ (pre : List DirEntry) (e : DirEntry) (post : List DirEntry)
        (m : List (String × PaperInfo)) (r : PaperInfo),
        (∀ e' ∈ pre, entryHasId e' pid = false) →
        e.isDir = true → e.file = .data m → dictLookup m pid = some r →
        extract_info (some (pre ++ e :: post)) pid = .found r)
    ∧ (∀ entries : List DirEntry, (∀ e ∈ entries, entryHasId e pid = false) →
        extract_info (some entries) pid = .notFound) := by
  refine ⟨rfl, ?_, ?_⟩
  · intro pre e post m r hpre hdir hfile hlook
    induction pre with
    | nil =>
      simp only [List.nil_append, extract_info]
      simp [extractInfoScan, hdir, hfile, hlook]
    | cons e' pre ih =>
      have hskip : entryHasId e' pid = false := hpre e' (List.mem_cons_self e' pre)
      simp only [List.cons_append, extract_info] at ih ⊢
      rw [extractInfoScan_cons_skip pid e' _ hskip]
      exact ih (fun x hx => hpre x (List.mem_cons_of_mem e' hx))
  · intro entries hall
    induction entries with
    | nil => rfl
    | cons e rest ih =>
      simp only [extract_info] at ih ⊢
      rw [extractInfoScan_cons_skip pid e rest (hall e (List.mem_cons_self e rest))]
      exact ih (fun x hx => hall x (List.mem_cons_of_mem e hx))

/-- Closed instance of `extract_info_first_match`: with a corrupt
partition listed before a valid one holding id `x1`, the lookup still
finds the record. -/
theorem extract_info_first_match_witness :
    extract_info (some [dirCorrupt, dirWithX]) "x1" = .found recA :=
  (extract_info_first_match "x1").2.1 [dirCorrupt] dirWithX [] [("x1", recA)] recA
    (by intro e' he'; simp at he'; subst he'; rfl) rfl rfl rfl

/-- C5: the slug derived by `search_papers` from the query
`"Quantum Computing"` is `quantum_computing`, and the topic-detail
listing of `get_topic_papers` renders that slug back as the title
`"Quantum Computing"`. -/
theorem slug_title_roundtrip :
    topicSlug "Quantum Computing" = "quantum_computing"
    ∧ topicTitleRender "quantum_computing" = "Quantum Computing" :=
  ⟨by decide, by decide⟩

/-- C6 counterexample: the summary `"short"` has at most 500 characters,
yet `get_topic_papers` does not render it bare — the truncation marker
`...` is appended even though the cap is not exceeded. -/
theorem summary_marker_cex :
    ("short" : String).length ≤ 500
    ∧ summaryExcerpt "short" ≠ "short"
    ∧ summaryExcerpt "short" = "short..." := by
  refine ⟨by decide, by decide, by decide⟩

/-- C6 (amended): the displayed excerpt is the first
`min 500 (length summary)` characters of the summary — hence at most
500 characters — and the truncation marker `...` is appended
unconditionally, in particular also when the summary has 500 or fewer
characters. -/
theorem summaryExcerpt_spec (s : String) :
    summaryExcerpt s = pySlice s 500 ++ "..."
    ∧ (pySlice s 500).length = min 500 s.length
    ∧ (s.length ≤ 500 → summaryExcerpt s = s ++ "...") := by
  refine ⟨rfl, ?_, ?_⟩
  · show (s.data.take 500).length = min 500 s.data.length
    rw [List.length_take]
  · intro hle
    show String.mk (s.data.take 500) ++ "..." = s ++ "..."
    have htake : s.data.take 500 = s.data :=
      List.take_of_length_le (show s.data.length ≤ 500 from hle)
    rw [htake]

/-- Closed instance of `summaryExcerpt_spec`: a three-character summary
is rendered whole, with the marker still appended. -/
theorem summaryExcerpt_spec_witness :
    summaryExcerpt "abc" = "abc" ++ "..." :=
  (summaryExcerpt_spec "abc").2.2 (by decide)

/-- C8: `calculator` is a total function into strings (the embedding
returns on every path, matching the catch-all `except` in the source):
an expression with a character outside the whitelist yields the
invalid-characters message before evaluation is attempted; a whitelisted
expression on which the `eval` collaborator raises (division by zero, a
syntax error) yields the evaluation-error message; and a whitelisted
expression that evaluates yields the result's string form. -/
theorem calculator_total_spec (evalF : String → Except String String)
    (expression : String) :
    ((¬ ∀ c ∈ expression.data, c ∈ allowedChars) →
      calculator evalF expression = "Error: Invalid characters in expression.")
    ∧ (∀ e : String, (∀ c ∈ expression.data, c ∈ allowedChars) →
        evalF expression = .error e →
        calculator evalF expression = "Error evaluating expression: " ++ e)
    ∧ (∀ v : String, (∀ c ∈ expression.data, c ∈ allowedChars) →
        evalF expression = .ok v → calculator evalF expression = v) := by
  refine ⟨?_, ?_, ?_⟩
  · intro h
    rw [calculator, if_neg]
    simpa using h
  · intro e hall he
    rw [calculator, if_pos (by simpa using hall), he]
  · intro v hall hv
    rw [calculator, if_pos (by simpa using hall), hv]

/-- Closed instance of `calculator_total_spec`: an `eval` collaborator
raising a division-by-zero error on the whitelisted expression `1/0`
produces the textual error message. -/
theorem calculator_total_spec_witness :
    calculator (fun _ => Except.error "division by zero") "1/0"
      = "Error evaluating expression: division by zero" :=
  (calculator_total_spec (fun _ => Except.error "division by zero") "1/0").2.1
    "division by zero" (by decide) rfl

/-- C9: when a nonempty format string is supplied and `strftime` raises,
`get_current_datetime` returns the error-message string (which mentions
the default format) and does not fall back to the ISO default; the ISO
default is returned exactly when the format string is absent or
empty (Python-falsy). On a nonempty format string the result is either
the `strftime` output or that error message. -/
theorem get_current_datetime_spec (isoNow : String)
    (strftimeF : String → Except String String) :
    get_current_datetime isoNow strftimeF none = isoNow
    ∧ get_current_datetime isoNow strftimeF (some "") = isoNow
    ∧ (∀ f e : String, f ≠ "" → strftimeF f = .error e →
        get_current_datetime isoNow strftimeF (some f)
          = "Error formatting date: " ++ e ++ ". Using default format.")
    ∧ (∀ f s : String, f ≠ "" → strftimeF f = .ok s →
        get_current_datetime isoNow strftimeF (some f) = s) := by
  refine ⟨rfl, rfl, ?_, ?_⟩
  · intro f e hf he
    rw [get_current_datetime, if_neg hf, he]
  · intro f s hf hs
    rw [get_current_datetime, if_neg hf, hs]

/-- Closed instance of `get_current_datetime_spec`: a failing `strftime`
collaborator on the nonempty format string produces the error message,
not the ISO default. -/
theorem get_current_datetime_spec_witness :
    get_current_datetime "2026-01-01T00:00:00" strftimeFailW (some "%Q")
      = "Error formatting date: bad directive. Using default format." :=
  (get_current_datetime_spec "2026-01-01T00:00:00" strftimeFailW).2.2.1
    "%Q" "bad directive" (by decide) rfl

/-- C7: both introspection endpoints degrade to a payload carrying an
`error` key — and, being total functions in this embedding, never fail —
whenever the Generator singleton is absent, lacks the `_initialized`
attribute, is uninitialized, or is missing an attribute the snapshot
actually accesses (for the configuration endpoint: any of the ten
configuration attributes; for the status endpoint: a present
`mcp_client_manager` lacking `_initialized` or `available_tools`). -/
theorem generator_endpoints_degrade :
    ((payloadLookup (get_generator_configuration none) "error").isSome = true
      ∧ (payloadLookup (get_generator_status none) "error").isSome = true)
    ∧ (∀ g : GenObj, (g.initializedAttr = none ∨ g.initializedAttr = some false) →
        (payloadLookup (get_generator_configuration (some g)) "error").isSome = true
        ∧ (payloadLookup (get_generator_status (some g)) "error").isSome = true)
    ∧ (∀ g : GenObj, g.initializedAttr = some true →
        (g.mainConfig = none ∨ g.modelConfig = none ∨
         g.defaultEmbeddingModel = none ∨ g.defaultCompletionModel = none ∨
         g.defaultReasoningModel = none ∨ g.defaultHfEmbeddingModel = none ∨
         g.defaultHfCompletionModel = none ∨ g.defaultHfRerankerModel = none ∨
         g.defaultHfOcrModel = none ∨ g.hfModelDir = none) →
        (payloadLookup (get_generator_configuration (some g)) "error").isSome = true)
    ∧ (∀ (g : GenObj) (mgr : McpClientManager), g.initializedAttr = some true →
        g.mcpClientManager = some mgr →
        (mgr.initializedAttr = none ∨ mgr.availableTools = none) →
        (payloadLookup (get_generator_status (some g)) "error").isSome = true) := by
  refine ⟨⟨rfl, rfl⟩, ?_, ?_, ?_⟩
  · intro g h
    rcases h with h | h <;>
      exact ⟨by simp [get_generator_configuration, h, unavailableErrorDict, payloadLookup],
             by simp [get_generator_status, h, unavailableErrorDict, payloadLookup]⟩
  · intro g hinit hdisj
    obtain ⟨ia, mc, moc, de, dc, dr, dhe, dhc, dhr, dho, hmd, emc, cmc, hfem, hfcm,
      lct, mgrO⟩ := g
    obtain rfl : ia = some true := hinit
    cases mc with
    | none => rfl
    | some mc =>
      cases moc with
      | none => rfl
      | some moc =>
        cases de with
        | none => rfl
        | some de =>
          cases dc with
          | none => rfl
          | some dc =>
            cases dr with
            | none => rfl
            | some dr =>
              cases dhe with
              | none => rfl
              | some dhe =>
                cases dhc with
                | none => rfl
                | some dhc =>
                  cases dhr with
                  | none => rfl
                  | some dhr =>
                    cases dho with
                    | none => rfl
                    | some dho =>
                      cases hmd with
                      | none => rfl
                      | some hmd =>
                        exfalso
                        rcases hdisj with h|h|h|h|h|h|h|h|h|h <;> simp at h
  · intro g mgr hinit hmgr hd
    obtain ⟨ia, mc, moc, de, dc, dr, dhe, dhc, dhr, dho, hmd, emc, cmc, hfem, hfcm,
      lct, mgrO⟩ := g
    obtain rfl : ia = some true := hinit
    obtain rfl : mgrO = some mgr := hmgr
    obtain ⟨mi, mt⟩ := mgr
    rcases hd with h | h
    · obtain rfl : mi = none := h
      rfl
    · obtain rfl : mt = none := h
      cases mi <;> rfl

/-- Closed instance of `generator_endpoints_degrade`: a present but
uninitialized singleton makes both endpoints return an error payload. -/
theorem generator_endpoints_degrade_witness :
    (payloadLookup (get_generator_configuration (some genUninitW)) "error").isSome = true
    ∧ (payloadLookup (get_generator_status (some genUninitW)) "error").isSome = true :=
  generator_endpoints_degrade.2.1 genUninitW (Or.inr rfl)

/-- C10: with an initialized singleton whose `mcp_client_manager`
attribute is missing, `get_generator_status` still returns a success
payload (no `error` key); each individually missing status attribute
degrades its own field to the sentinel `N/A` (or `Not loaded` for the
HuggingFace model fields) instead of failing the whole response. -/
theorem get_generator_status_na_fields (g : GenObj)
    (hinit : g.initializedAttr = some true)
    (hmgr : g.mcpClientManager = none) :
    payloadLookup (get_generator_status (some g)) "error" = none
    ∧ payloadLookup (get_generator_status (some g)) "mcp_client_manager_initialized"
        = some (.s "N/A")
    ∧ payloadLookup (get_generator_status (some g)) "mcp_client_available_tools_count"
        = some (.s "N/A")
    ∧ (g.embeddingModelCache = none →
        payloadLookup (get_generator_status (some g)) "embedding_model_cache_size"
          = some (.s "N/A"))
    ∧ (g.completionModelCache = none →
        payloadLookup (get_generator_status (some g)) "completion_model_cache_size"
          = some (.s "N/A"))
    ∧ (g.lastCleanupTime = none →
        payloadLookup (get_generator_status (some g)) "last_cleanup_time"
          = some (.s "N/A"))
    ∧ (g.hfEmbeddingModel = none →
        payloadLookup (get_generator_status (some g)) "hf_embedding_model_loaded"
          = some (.s "Not loaded"))
    ∧ (g.hfCompletionModel = none →
        payloadLookup (get_generator_status (some g)) "hf_completion_model_loaded"
          = some (.s "Not loaded")) := by
  obtain ⟨ia, mc, moc, de, dc, dr, dhe, dhc, dhr, dho, hmd, emc, cmc, hfem, hfcm,
    lct, mgrO⟩ := g
  obtain rfl : ia = some true := hinit
  obtain rfl : mgrO = none := hmgr
  refine ⟨rfl, rfl, rfl, ?_, ?_, ?_, ?_, ?_⟩
  · intro h
    obtain rfl : emc = none := h
    rfl
  · intro h
    obtain rfl : cmc = none := h
    rfl
  · intro h
    obtain rfl : lct = none := h
    rfl
  · intro h
    obtain rfl : hfem = none := h
    rfl
  · intro h
    obtain rfl : hfcm = none := h
    rfl

/-- Closed instance of `get_generator_status_na_fields` on a concrete
initialized singleton lacking every optional status attribute: the
response carries no `error` key and the cache-size field reads `N/A`. -/
theorem get_generator_status_na_fields_witness :
    payloadLookup (get_generator_status (some genSparseW)) "embedding_model_cache_size"
      = some (.s "N/A")
    ∧ payloadLookup (get_generator_status (some genSparseW)) "error" = none :=
  ⟨(get_generator_status_na_fields genSparseW rfl rfl).2.2.2.1 rfl,
   (get_generator_status_na_fields genSparseW rfl rfl).1⟩

end PlaygroundMCP
